import Mathlib

/-!
Shallow embedding of the amzn-s3-uploader lambda handlers.

Source files:
  src/lambda/presigned-url/lambda_function.py      (the UploadPlanner)
  src/lambda/complete-multipart/lambda_function.py (the UploadFinalizer)

The transport plumbing (HTTP method dispatch, CORS headers, JSON envelope)
is outside the modelled core; we embed the handler bodies from the point
where the request body has been parsed.  JSON string fields are modelled as
`Option String` (absent / null = `none`), numeric fields as `Option Int`.
Python truthiness on these values is made explicit.  Calls to the S3
client are recorded in an effect trace (`List StoreCall`), and the
responses of the store are passed in as an explicit store model, so that a
single pure function captures both the returned body and the store
interaction.
-/

namespace Uploader

/-- Python truthiness of an optional string: `None` and `""` are falsy. -/
def strTruthy : Option String → Bool
  | none => false
  | some s => !(s == "")

/-- One call made against the S3 client.  `createMultipartUpload`,
`completeMultipartUpload` and `abortMultipartUpload` are store-level
mutations; the two presign operations are local signing operations. -/
inductive StoreCall where
  | createMultipartUpload (bucket key contentType : String)
  | presignUploadPart (bucket key : String) (partNumber : Nat) (uploadId : String)
  | presignPutObject (bucket key contentType : String)
  | completeMultipartUpload (bucket key uploadId : String) (parts : List (String × Int))
  | abortMultipartUpload (bucket key uploadId : String)
  deriving DecidableEq, Repr

/-- Whether a store call is a store-level mutation (as opposed to local
presigned-URL minting). -/
def StoreCall.isMutation : StoreCall → Bool
  | .createMultipartUpload _ _ _ => true
  | .completeMultipartUpload _ _ _ _ => true
  | .abortMultipartUpload _ _ _ => true
  | _ => false

/-- Whether a store call is the session-initiation call
(`create_multipart_upload`). -/
def StoreCall.isInitiate : StoreCall → Bool
  | .createMultipartUpload _ _ _ => true
  | _ => false

/-- Whether a store call is the abort call (`abort_multipart_upload`). -/
def StoreCall.isAbort : StoreCall → Bool
  | .abortMultipartUpload _ _ _ => true
  | _ => false

/-! ## UploadPlanner: src/lambda/presigned-url/lambda_function.py -/

/-- The parsed request body of the presigned-url lambda:
`fileName`, `fileType`, `fileSize` read with `body.get(...)`. -/
structure PlanEvent where
  fileName : Option String
  fileType : Option String
  fileSize : Option Int
  deriving Repr

/-- Fixed part size `10 * 1024 * 1024` (10 MiB), line 56 of the planner. -/
def PART_SIZE : Nat := 10 * 1024 * 1024

/-- The large-file threshold `100 * 1024 * 1024` (100 MiB), line 43. -/
def LARGE_FILE_THRESHOLD : Int := 100 * 1024 * 1024

/-- One entry of the `presignedUrls` array returned in multipart mode. -/
structure PartAuth where
  partNumber : Nat
  presignedUrl : String
  deriving DecidableEq, Repr

/-- The body returned by the planner handler (minus CORS/status plumbing):
`invalidRequest` is the 400 response, `single`/`multipart` the 200
responses, `awsError` the 500 `ClientError` response and `genericError`
the catch-all 500 response. -/
inductive PlanResult where
  | invalidRequest
  | single (presignedUrl : String) (key : String)
  | multipart (uploadId : String) (key : String)
      (presignedUrls : List PartAuth) (partSize : Nat)
  | awsError
  | genericError
  deriving DecidableEq, Repr

/-- The store model seen by the planner: the outcome of
`create_multipart_upload` (an `UploadId`, or a `ClientError`), and the
presigned-URL signing functions (local operations, always succeed). -/
structure PlannerStore where
  initiateResult : Except Unit String
  presignPut : String → String → String → String
  presignPart : String → String → Nat → String → String

/-- Value of one hexadecimal digit, as accepted by Python `int(_, 16)`. -/
def hexDigitVal (c : Char) : Option Nat :=
  if '0' ≤ c ∧ c ≤ '9' then some (c.toNat - '0'.toNat)
  else if 'a' ≤ c ∧ c ≤ 'f' then some (c.toNat - 'a'.toNat + 10)
  else if 'A' ≤ c ∧ c ≤ 'F' then some (c.toNat - 'A'.toNat + 10)
  else none

/-- Fold a list of hex digits into a number, failing on a non-digit. -/
def hexFold : Nat → List Char → Option Nat
  | acc, [] => some acc
  | acc, c :: cs => match hexDigitVal c with
    | some d => hexFold (acc * 16 + d) cs
    | none => none

/-- Python `int(s, 16)` restricted to plain hexadecimal-digit strings
(the shape of an AWS request id prefix); the empty string and any
non-digit raise `ValueError`, modelled as `none`. -/
def parseHex16 (s : String) : Option Nat :=
  if s.isEmpty then none else hexFold 0 s.data

/-- Line 40 of the planner:
`key = f"uploads/{int(context.aws_request_id[:8], 16)}-{file_name}"`. -/
def derivedKey (token : Nat) (fileName : String) : String :=
  "uploads/" ++ toString token ++ "-" ++ fileName

/-- Line 43: `is_large_file = file_size and file_size > 100 * 1024 * 1024`,
used as the condition of an `if`.  A falsy `file_size` (absent or zero)
short-circuits to falsy; otherwise the comparison decides. -/
def isLargeFile (fileSize : Option Int) : Bool :=
  match fileSize with
  | none => false
  | some n => if n == 0 then false else decide (n > LARGE_FILE_THRESHOLD)

/-- The planner handler body (src/lambda/presigned-url/lambda_function.py,
`lambda_handler` after body parsing), returning the response body and the
trace of S3-client calls in the order the code makes them.
`requestId` is `context.aws_request_id`; the bucket name is the
`UPLOAD_BUCKET_NAME` environment value, assumed present. -/
def plan (bucket : String) (store : PlannerStore) (requestId : String)
    (ev : PlanEvent) : PlanResult × List StoreCall :=
  if !(strTruthy ev.fileName && strTruthy ev.fileType) then
    (.invalidRequest, [])
  else
    let fileName := ev.fileName.getD ""
    let fileType := ev.fileType.getD ""
    match parseHex16 (requestId.take 8) with
    | none => (.genericError, [])
    | some token =>
      let key := derivedKey token fileName
      if isLargeFile ev.fileSize then
        match store.initiateResult with
        | .error _ => (.awsError, [.createMultipartUpload bucket key fileType])
        | .ok uploadId =>
          let fileSize := (ev.fileSize.getD 0).toNat
          let numParts := (fileSize + PART_SIZE - 1) / PART_SIZE
          let urls := (List.range numParts).map (fun i =>
            { partNumber := i + 1
              presignedUrl := store.presignPart bucket key (i + 1) uploadId })
          (.multipart uploadId key urls PART_SIZE,
            .createMultipartUpload bucket key fileType ::
              (List.range numParts).map
                (fun i => .presignUploadPart bucket key (i + 1) uploadId))
      else
        (.single (store.presignPut bucket key fileType) key,
          [.presignPutObject bucket key fileType])

/-! ## UploadFinalizer: src/lambda/complete-multipart/lambda_function.py -/

/-- One entry of the caller-supplied `parts` list, a JSON object whose
`ETag` / `PartNumber` fields may be absent (the subscript dict access on
a missing field raises `KeyError`, caught by the generic handler). -/
structure PartEntry where
  eTag : Option String
  partNumber : Option Int
  deriving DecidableEq, Repr

/-- The JSON value found under `parts`: a proper list of entries, or any
non-list value (caught by the `isinstance(parts, list)` check). -/
inductive PartsField where
  | list (entries : List PartEntry)
  | nonList
  deriving DecidableEq, Repr

/-- The parsed request body of the complete-multipart lambda:
`uploadId`, `key`, `parts` read with `body.get(...)`. -/
structure FinalizeEvent where
  uploadId : Option String
  key : Option String
  parts : Option PartsField
  deriving Repr

/-- The response fields of `complete_multipart_upload`, each read with
`response.get(...)` and hence possibly absent. -/
structure CompleteResponse where
  location : Option String
  key : Option String
  eTag : Option String
  deriving DecidableEq, Repr

/-- The store model seen by the finalizer: the outcome of
`complete_multipart_upload` (a response, or a `ClientError`) and the
outcome of `abort_multipart_upload` (success, or any error — its own
failure is caught inside the handler). -/
structure FinalizeStore where
  completeResult : Except Unit CompleteResponse
  abortResult : Except Unit Unit

/-- The body returned by the finalizer handler: `invalidRequest` is the
400 response, `success` the 200 response, `storeError` the 500
`ClientError` response (the one the rollback path returns whether or not
the abort itself succeeded), and `genericError` the catch-all 500. -/
inductive FinalizeResult where
  | invalidRequest
  | success (location key etag : String)
  | storeError
  | genericError
  deriving DecidableEq, Repr

/-- Lines 41-46 of the finalizer: reformat the caller manifest into the
(ETag, PartNumber) pairs passed to the store; a missing field raises
`KeyError` (modelled as `none`), which the generic handler turns into the
catch-all 500 before any store call is made. -/
def formatParts : List PartEntry → Option (List (String × Int))
  | [] => some []
  | e :: rest =>
    match e.eTag, e.partNumber with
    | some t, some n => (formatParts rest).map (fun r => (t, n) :: r)
    | _, _ => none

/-- Whether the `parts` field is a proper non-empty list.  The validation
guard of line 31 (`not upload_id or not key or not parts or not
isinstance(parts, list)`) passes exactly when uploadId and key are truthy
and this holds: an empty list is falsy, and a non-list value either is
falsy itself or fails the isinstance check — a 400 response either way. -/
def isProperNonemptyList : Option PartsField → Bool
  | some (.list (_ :: _)) => true
  | _ => false

/-- The finalizer handler body
(src/lambda/complete-multipart/lambda_function.py, `lambda_handler` after
body parsing), returning the response body and the trace of S3-client
calls in order.  On a `ClientError` from completion the abort is
attempted exactly once (the inner `if upload_id and key` is already known
true here), its own failure is swallowed, and the `storeError` body is
returned either way. -/
def finalize (bucket : String) (store : FinalizeStore)
    (ev : FinalizeEvent) : FinalizeResult × List StoreCall :=
  match ev.parts with
  | some (.list (e :: es)) =>
    if strTruthy ev.uploadId && strTruthy ev.key then
      let uploadId := ev.uploadId.getD ""
      let key := ev.key.getD ""
      match formatParts (e :: es) with
      | none => (.genericError, [])
      | some formatted =>
        match store.completeResult with
        | .ok resp =>
          (.success (resp.location.getD "") (resp.key.getD key)
             (resp.eTag.getD ""),
           [.completeMultipartUpload bucket key uploadId formatted])
        | .error _ =>
          (.storeError,
           [.completeMultipartUpload bucket key uploadId formatted,
            .abortMultipartUpload bucket key uploadId])
    else (.invalidRequest, [])
  | _ => (.invalidRequest, [])

/-! ## Observation helpers and concrete sample inputs -/

/-- The object key carried in a successful planner response body. -/
def PlanResult.objectKey : PlanResult → Option String
  | .single _ key => some key
  | .multipart _ key _ _ => some key
  | _ => none

/-- The number of part authorizations in a planner response body
(`none` unless the response is the multipart success body). -/
def PlanResult.numAuthorizations : PlanResult → Option Nat
  | .multipart _ _ urls _ => some urls.length
  | _ => none

/-- A concrete planner store for instantiating the theorems: initiation
succeeds with upload id `upload-1`, presigning returns a fixed URL. -/
def constPlannerStore : PlannerStore :=
  { initiateResult := .ok "upload-1"
    presignPut := fun _ _ _ => "url"
    presignPart := fun _ _ _ _ => "url" }

/-- A concrete request body with fileSize 104 MiB (the example of the
spec: a last part of 4 MiB with the fixed 10 MiB part size). -/
def ev104 : PlanEvent :=
  { fileName := some "f.bin", fileType := some "video/mp4"
    fileSize := some (104 * 1024 * 1024) }

/-- A concrete request body with fileSize 250 MiB (the 25-part example of
the spec). -/
def ev250 : PlanEvent :=
  { fileName := some "f.bin", fileType := some "video/mp4"
    fileSize := some (250 * 1024 * 1024) }

/-- A concrete small-file request body (declared size 1 KiB). -/
def evSmall : PlanEvent :=
  { fileName := some "f.txt", fileType := some "text/plain"
    fileSize := some 1024 }

/-- A concrete request body with no declared fileSize. -/
def evNoSize : PlanEvent :=
  { fileName := some "f.txt", fileType := some "text/plain"
    fileSize := none }

/-- A concrete finalizer request body with a one-entry manifest. -/
def sampleManifestEvent : FinalizeEvent :=
  { uploadId := some "sess-1", key := some "obj-key"
    parts := some (.list [{ eTag := some "etag-1", partNumber := some 1 }]) }

/-- A concrete completion response from the store. -/
def sampleCompleteResponse : CompleteResponse :=
  { location := some "https://store/obj-key", key := some "obj-key"
    eTag := some "final-etag" }

/-! # Theorems -/

/-- A fileSize strictly above the threshold makes line 43 pick the
multipart branch. -/
theorem isLargeFile_true_of_gt (n : Int) (h : LARGE_FILE_THRESHOLD < n) :
    isLargeFile (some n) = true := by
  have h0 : (100 * 1024 * 1024 : Int) < n := by
    simpa [LARGE_FILE_THRESHOLD] using h
  have hne : (n == 0) = false := by
    simp only [beq_eq_false_iff_ne, ne_eq]
    omega
  simp [isLargeFile, hne, LARGE_FILE_THRESHOLD]
  omega

/-- Reduction of `plan` on the successful multipart path: the response
and the call trace, written out. -/
theorem plan_multipart_eq (bucket requestId : String) (store : PlannerStore)
    (ev : PlanEvent) (token : Nat) (n : Int) (uploadId : String)
    (hname : strTruthy ev.fileName = true) (htype : strTruthy ev.fileType = true)
    (hsize : ev.fileSize = some n) (hbig : LARGE_FILE_THRESHOLD < n)
    (htok : parseHex16 (requestId.take 8) = some token)
    (hinit : store.initiateResult = .ok uploadId) :
    plan bucket store requestId ev =
      (.multipart uploadId (derivedKey token (ev.fileName.getD ""))
         ((List.range ((n.toNat + PART_SIZE - 1) / PART_SIZE)).map fun i =>
           { partNumber := i + 1
             presignedUrl := store.presignPart bucket
               (derivedKey token (ev.fileName.getD "")) (i + 1) uploadId })
         PART_SIZE,
       .createMultipartUpload bucket (derivedKey token (ev.fileName.getD ""))
           (ev.fileType.getD "") ::
         (List.range ((n.toNat + PART_SIZE - 1) / PART_SIZE)).map fun i =>
           .presignUploadPart bucket (derivedKey token (ev.fileName.getD ""))
             (i + 1) uploadId) := by
  have hlf := isLargeFile_true_of_gt n hbig
  simp [plan, hname, htype, htok, hsize, hlf, hinit]

/-- C1: for every valid multipart request (fileName and fileType
non-empty, fileSize present and above the 100 MiB threshold) whose
session initiation succeeds, plan uses the fixed 10 MiB part size and
returns exactly ceil(fileSize / partSize) part authorizations (the two
inequalities pin the returned length as the exact ceiling of the
division), and the authorization at 0-based index i carries partNumber
i + 1 — part numbers contiguous from 1 in ascending order. -/
theorem plan_multipart_partition (bucket requestId : String)
    (store : PlannerStore) (ev : PlanEvent) (token : Nat) (n : Int)
    (uploadId : String)
    (hname : strTruthy ev.fileName = true) (htype : strTruthy ev.fileType = true)
    (hsize : ev.fileSize = some n) (hbig : LARGE_FILE_THRESHOLD < n)
    (htok : parseHex16 (requestId.take 8) = some token)
    (hinit : store.initiateResult = .ok uploadId) :
    ∃ key urls,
      (plan bucket store requestId ev).1 =
        PlanResult.multipart uploadId key urls PART_SIZE ∧
      urls.length = (n.toNat + PART_SIZE - 1) / PART_SIZE ∧
      PART_SIZE * (urls.length - 1) < n.toNat ∧
      n.toNat ≤ PART_SIZE * urls.length ∧
      ∀ (i : Nat) (hi : i < urls.length),
        (urls.get ⟨i, hi⟩).partNumber = i + 1 := by
  have h := plan_multipart_eq bucket requestId store ev token n uploadId
    hname htype hsize hbig htok hinit
  have hn : (100 * 1024 * 1024 : Int) < n := by
    simpa [LARGE_FILE_THRESHOLD] using hbig
  have hn2 : 104857600 < n.toNat := by omega
  refine ⟨derivedKey token (ev.fileName.getD ""),
    (List.range ((n.toNat + PART_SIZE - 1) / PART_SIZE)).map (fun i =>
      { partNumber := i + 1
        presignedUrl := store.presignPart bucket
          (derivedKey token (ev.fileName.getD "")) (i + 1) uploadId }),
    ?_, ?_, ?_, ?_, ?_⟩
  · rw [h]
  · simp
  · simp only [List.length_map, List.length_range, PART_SIZE]
    omega
  · simp only [List.length_map, List.length_range, PART_SIZE]
    omega
  · intro i hi
    simp [List.get_eq_getElem]

/-- Witness for C1 at the 250 MiB example of the spec (25 full parts). -/
theorem plan_multipart_partition_witness :
    ∃ key urls,
      (plan "bkt" constPlannerStore "ab" ev250).1 =
        PlanResult.multipart "upload-1" key urls PART_SIZE ∧
      urls.length = ((250 * 1024 * 1024 : Int).toNat + PART_SIZE - 1) / PART_SIZE ∧
      PART_SIZE * (urls.length - 1) < (250 * 1024 * 1024 : Int).toNat ∧
      (250 * 1024 * 1024 : Int).toNat ≤ PART_SIZE * urls.length ∧
      ∀ (i : Nat) (hi : i < urls.length),
        (urls.get ⟨i, hi⟩).partNumber = i + 1 :=
  plan_multipart_partition "bkt" "ab" constPlannerStore ev250 171
    (250 * 1024 * 1024) "upload-1" rfl rfl rfl (by decide) (by decide) rfl

/-- C2 counterexample: at the example of the spec itself — fileSize =
104 MiB with the fixed 10 MiB part size, so the last part would be 4 MiB,
below the 5 MiB store minimum — plan does NOT fail with InvalidRequest:
it succeeds in multipart mode with 11 part authorizations.  The planner
contains no fileSize/partSize validation at all. -/
theorem plan_104MiB_succeeds :
    (plan "bkt" constPlannerStore "0" ev104).1 ≠ PlanResult.invalidRequest ∧
    (plan "bkt" constPlannerStore "0" ev104).1.numAuthorizations = some 11 := by
  constructor
  · decide
  · decide

/-- C2 amended: plan performs no minimum-part-size validation.  For every
fileSize above the threshold whose last part would be smaller than the
5 MiB store minimum (remainder of the division below 5 MiB, including the
exactly-divisible boundary case of remainder 0), plan does not fail with
InvalidRequest: given a successful initiation it returns the multipart
success body with ceil(fileSize / partSize) part authorizations. -/
theorem plan_undersized_last_part_succeeds (bucket requestId : String)
    (store : PlannerStore) (ev : PlanEvent) (token : Nat) (n : Int)
    (uploadId : String)
    (hname : strTruthy ev.fileName = true) (htype : strTruthy ev.fileType = true)
    (hsize : ev.fileSize = some n) (hbig : LARGE_FILE_THRESHOLD < n)
    (hrem : n.toNat % PART_SIZE < 5 * 1024 * 1024)
    (htok : parseHex16 (requestId.take 8) = some token)
    (hinit : store.initiateResult = .ok uploadId) :
    (plan bucket store requestId ev).1 ≠ PlanResult.invalidRequest ∧
    ∃ key urls,
      (plan bucket store requestId ev).1 =
        PlanResult.multipart uploadId key urls PART_SIZE ∧
      urls.length = (n.toNat + PART_SIZE - 1) / PART_SIZE := by
  have h := plan_multipart_eq bucket requestId store ev token n uploadId
    hname htype hsize hbig htok hinit
  rw [h]
  refine ⟨by simp, _, _, rfl, by simp⟩

/-- Witness for the amended C2 at fileSize = 104 MiB (remainder 4 MiB,
below the 5 MiB minimum). -/
theorem plan_undersized_last_part_succeeds_witness :
    (plan "bkt" constPlannerStore "0" ev104).1 ≠ PlanResult.invalidRequest ∧
    ∃ key urls,
      (plan "bkt" constPlannerStore "0" ev104).1 =
        PlanResult.multipart "upload-1" key urls PART_SIZE ∧
      urls.length = ((104 * 1024 * 1024 : Int).toNat + PART_SIZE - 1) / PART_SIZE :=
  plan_undersized_last_part_succeeds "bkt" "0" constPlannerStore ev104 0
    (104 * 1024 * 1024) "upload-1" rfl rfl rfl (by decide) (by decide)
    (by decide) rfl

/-- A fileSize at or below the threshold (or absent) makes line 43 pick
the single-shot branch. -/
theorem isLargeFile_false_of_small (fileSize : Option Int)
    (h : fileSize = none ∨ ∃ n, fileSize = some n ∧ n ≤ LARGE_FILE_THRESHOLD) :
    isLargeFile fileSize = false := by
  rcases h with h | ⟨n, rfl, hn⟩
  · rw [h]; rfl
  · simp only [isLargeFile]
    split
    · rfl
    · simp only [decide_eq_false_iff_not, not_lt]
      exact hn

/-- Reduction of `plan` on the single-shot path: the response and the
call trace, written out. -/
theorem plan_single_eq (bucket requestId : String) (store : PlannerStore)
    (ev : PlanEvent) (token : Nat)
    (hname : strTruthy ev.fileName = true) (htype : strTruthy ev.fileType = true)
    (htok : parseHex16 (requestId.take 8) = some token)
    (hlf : isLargeFile ev.fileSize = false) :
    plan bucket store requestId ev =
      (.single
         (store.presignPut bucket (derivedKey token (ev.fileName.getD ""))
           (ev.fileType.getD ""))
         (derivedKey token (ev.fileName.getD "")),
       [.presignPutObject bucket (derivedKey token (ev.fileName.getD ""))
          (ev.fileType.getD "")]) := by
  simp [plan, hname, htype, htok, hlf]

/-- C5: for every valid request whose fileSize is absent or at most the
100 MiB threshold, plan chooses single-shot mode: it returns exactly one
authorization — a presigned put for the derived object key with the
declared content type — the trace holds that single local signing call,
and no session-initiation call and no store-level mutation of any kind
occurs. -/
theorem plan_single_shot (bucket requestId : String) (store : PlannerStore)
    (ev : PlanEvent) (token : Nat)
    (hname : strTruthy ev.fileName = true) (htype : strTruthy ev.fileType = true)
    (htok : parseHex16 (requestId.take 8) = some token)
    (hsize : ev.fileSize = none ∨
      ∃ n, ev.fileSize = some n ∧ n ≤ LARGE_FILE_THRESHOLD) :
    ∃ key,
      (plan bucket store requestId ev).1 =
        PlanResult.single (store.presignPut bucket key (ev.fileType.getD "")) key ∧
      (plan bucket store requestId ev).2 =
        [.presignPutObject bucket key (ev.fileType.getD "")] ∧
      ∀ c ∈ (plan bucket store requestId ev).2,
        c.isMutation = false ∧ c.isInitiate = false := by
  have h := plan_single_eq bucket requestId store ev token hname htype htok
    (isLargeFile_false_of_small ev.fileSize hsize)
  rw [h]
  exact ⟨derivedKey token (ev.fileName.getD ""), rfl, rfl, by
    intro c hc
    simp only [List.mem_singleton] at hc
    subst hc
    exact ⟨rfl, rfl⟩⟩

/-- Witness for C5 at a 1 KiB declared size. -/
theorem plan_single_shot_witness :
    ∃ key,
      (plan "bkt" constPlannerStore "ab" evSmall).1 =
        PlanResult.single (constPlannerStore.presignPut "bkt" key
          (evSmall.fileType.getD "")) key ∧
      (plan "bkt" constPlannerStore "ab" evSmall).2 =
        [.presignPutObject "bkt" key (evSmall.fileType.getD "")] ∧
      ∀ c ∈ (plan "bkt" constPlannerStore "ab" evSmall).2,
        c.isMutation = false ∧ c.isInitiate = false :=
  plan_single_shot "bkt" "ab" constPlannerStore evSmall 171 rfl rfl rfl
    (Or.inr ⟨1024, rfl, by decide⟩)

/-- C10: a fileSize that is present but zero or negative is treated
exactly like an absent one — the handler never checks fileSize against
the non-negative-integer requirement of the data model: line 43 computes
a falsy (zero) or false (negative) large-file flag, so plan succeeds in
single-shot mode, with a response and trace identical to the absent-size
call. -/
theorem plan_nonpositive_fileSize_single (bucket requestId : String)
    (store : PlannerStore) (fn ft : String) (n : Int) (token : Nat)
    (hname : strTruthy (some fn) = true) (htype : strTruthy (some ft) = true)
    (hn : n ≤ 0)
    (htok : parseHex16 (requestId.take 8) = some token) :
    plan bucket store requestId ⟨some fn, some ft, some n⟩ =
      plan bucket store requestId ⟨some fn, some ft, none⟩ ∧
    ∃ url key,
      (plan bucket store requestId ⟨some fn, some ft, some n⟩).1 =
        PlanResult.single url key := by
  have hlf : isLargeFile (some n) = false := by
    apply isLargeFile_false_of_small
    exact Or.inr ⟨n, rfl, by
      simp only [LARGE_FILE_THRESHOLD]
      omega⟩
  have h₁ := plan_single_eq bucket requestId store ⟨some fn, some ft, some n⟩
    token hname htype htok hlf
  have h₂ := plan_single_eq bucket requestId store ⟨some fn, some ft, none⟩
    token hname htype htok rfl
  rw [h₁, h₂]
  exact ⟨rfl, _, _, rfl⟩

/-- Witness for C10 at fileSize = -1. -/
theorem plan_nonpositive_fileSize_single_witness :
    plan "bkt" constPlannerStore "ab" ⟨some "f.txt", some "text/plain", some (-1)⟩ =
      plan "bkt" constPlannerStore "ab" ⟨some "f.txt", some "text/plain", none⟩ ∧
    ∃ url key,
      (plan "bkt" constPlannerStore "ab"
          ⟨some "f.txt", some "text/plain", some (-1)⟩).1 =
        PlanResult.single url key :=
  plan_nonpositive_fileSize_single "bkt" "ab" constPlannerStore "f.txt"
    "text/plain" (-1) 171 rfl rfl (by decide) rfl

/-- C6: for every finalize call that passes validation and whose
completion the store accepts, finalize returns the success body built
from the fields the store reported (location, final key, integrity tag),
the trace holds exactly the one completion call, and no abort call is
ever made. -/
theorem finalize_success_no_abort (bucket : String) (store : FinalizeStore)
    (ev : FinalizeEvent) (e : PartEntry) (es : List PartEntry)
    (formatted : List (String × Int)) (resp : CompleteResponse)
    (hu : strTruthy ev.uploadId = true) (hk : strTruthy ev.key = true)
    (hp : ev.parts = some (.list (e :: es)))
    (hf : formatParts (e :: es) = some formatted)
    (hc : store.completeResult = .ok resp) :
    finalize bucket store ev =
      (.success (resp.location.getD "") (resp.key.getD (ev.key.getD ""))
         (resp.eTag.getD ""),
       [.completeMultipartUpload bucket (ev.key.getD "") (ev.uploadId.getD "")
          formatted]) ∧
    ∀ c ∈ (finalize bucket store ev).2, c.isAbort = false := by
  constructor
  · simp [finalize, hp, hu, hk, hf, hc]
  · simp [finalize, hp, hu, hk, hf, hc, StoreCall.isAbort]

/-- Witness for C6 on the one-entry sample manifest. -/
theorem finalize_success_no_abort_witness :
    finalize "bkt" ⟨.ok sampleCompleteResponse, .ok ()⟩ sampleManifestEvent =
      (.success (sampleCompleteResponse.location.getD "")
         (sampleCompleteResponse.key.getD (sampleManifestEvent.key.getD ""))
         (sampleCompleteResponse.eTag.getD ""),
       [.completeMultipartUpload "bkt" (sampleManifestEvent.key.getD "")
          (sampleManifestEvent.uploadId.getD "") [("etag-1", 1)]]) ∧
    ∀ c ∈ (finalize "bkt" ⟨.ok sampleCompleteResponse, .ok ()⟩
        sampleManifestEvent).2, c.isAbort = false :=
  finalize_success_no_abort "bkt" ⟨.ok sampleCompleteResponse, .ok ()⟩
    sampleManifestEvent ⟨some "etag-1", some 1⟩ [] [("etag-1", 1)]
    sampleCompleteResponse rfl rfl rfl rfl rfl

/-- C3: for every finalize call that passes validation and whose
completion the store rejects, the trace is exactly the completion call
followed by the abort call: the compensating abort is attempted exactly
once, only after the completion has failed, and it is part of the trace
of the same call — it runs to its outcome before finalize returns — and
when the abort succeeds the outward-facing result is the storeError body
from the original completion failure. -/
theorem finalize_failure_single_abort (bucket : String)
    (store : FinalizeStore) (ev : FinalizeEvent) (e : PartEntry)
    (es : List PartEntry) (formatted : List (String × Int))
    (hu : strTruthy ev.uploadId = true) (hk : strTruthy ev.key = true)
    (hp : ev.parts = some (.list (e :: es)))
    (hf : formatParts (e :: es) = some formatted)
    (hc : store.completeResult = .error ()) :
    (finalize bucket store ev).2 =
      [.completeMultipartUpload bucket (ev.key.getD "") (ev.uploadId.getD "")
         formatted,
       .abortMultipartUpload bucket (ev.key.getD "") (ev.uploadId.getD "")] ∧
    ((finalize bucket store ev).2.filter (fun c => c.isAbort)).length = 1 ∧
    (store.abortResult = .ok () → (finalize bucket store ev).1 = .storeError) := by
  refine ⟨?_, ?_, fun _ => ?_⟩ <;>
    simp [finalize, hp, hu, hk, hf, hc, StoreCall.isAbort]

/-- Witness for C3 on the one-entry sample manifest with a rejecting
store whose abort succeeds. -/
theorem finalize_failure_single_abort_witness :
    (finalize "bkt" ⟨.error (), .ok ()⟩ sampleManifestEvent).2 =
      [.completeMultipartUpload "bkt" (sampleManifestEvent.key.getD "")
         (sampleManifestEvent.uploadId.getD "") [("etag-1", 1)],
       .abortMultipartUpload "bkt" (sampleManifestEvent.key.getD "")
         (sampleManifestEvent.uploadId.getD "")] ∧
    ((finalize "bkt" ⟨.error (), .ok ()⟩ sampleManifestEvent).2.filter
        (fun c => c.isAbort)).length = 1 ∧
    ((⟨.error (), .ok ()⟩ : FinalizeStore).abortResult = .ok () →
      (finalize "bkt" ⟨.error (), .ok ()⟩ sampleManifestEvent).1 = .storeError) :=
  finalize_failure_single_abort "bkt" ⟨.error (), .ok ()⟩ sampleManifestEvent
    ⟨some "etag-1", some 1⟩ [] [("etag-1", 1)] rfl rfl rfl rfl rfl

/-- C4 counterexample: on the one-entry sample manifest, when the store
rejects the completion AND the compensating abort also fails, finalize
returns the plain storeError body — identical, trace included, to the
response when the abort succeeds.  There is no PartialFailure result
carrying both error details: the abort error appears nowhere in the
outward-facing result. -/
theorem finalize_abort_failure_not_distinguished :
    (finalize "bkt" ⟨.error (), .error ()⟩ sampleManifestEvent).1 =
      FinalizeResult.storeError ∧
    finalize "bkt" ⟨.error (), .error ()⟩ sampleManifestEvent =
      finalize "bkt" ⟨.error (), .ok ()⟩ sampleManifestEvent := by
  constructor <;> decide

/-- C4 amended: when the store rejects the completion and the
compensating abort also fails, finalize still returns the plain
storeError result; the abort failure is swallowed (logged only) and the
response — body and trace — does not depend on the abort outcome at all,
so no PartialFailure distinguishable from storeError is ever produced. -/
theorem finalize_abort_failure_swallowed (bucket : String)
    (ev : FinalizeEvent) (e : PartEntry) (es : List PartEntry)
    (formatted : List (String × Int)) (a b : Except Unit Unit)
    (hu : strTruthy ev.uploadId = true) (hk : strTruthy ev.key = true)
    (hp : ev.parts = some (.list (e :: es)))
    (hf : formatParts (e :: es) = some formatted) :
    (finalize bucket ⟨.error (), a⟩ ev).1 = FinalizeResult.storeError ∧
    finalize bucket ⟨.error (), a⟩ ev = finalize bucket ⟨.error (), b⟩ ev := by
  constructor <;> simp [finalize, hp, hu, hk, hf]

/-- Witness for the amended C4 on the one-entry sample manifest with both
calls failing. -/
theorem finalize_abort_failure_swallowed_witness :
    (finalize "bkt" ⟨.error (), .error ()⟩ sampleManifestEvent).1 =
      FinalizeResult.storeError ∧
    finalize "bkt" ⟨.error (), .error ()⟩ sampleManifestEvent =
      finalize "bkt" ⟨.error (), .ok ()⟩ sampleManifestEvent :=
  finalize_abort_failure_swallowed "bkt" sampleManifestEvent
    ⟨some "etag-1", some 1⟩ [] [("etag-1", 1)] (.error ()) (.ok ())
    rfl rfl rfl rfl

/-- A manifest containing an entry that lacks the ETag or the PartNumber
field fails the reformatting loop (KeyError in the source). -/
theorem formatParts_eq_none_of_missing :
    ∀ (l : List PartEntry), (∃ x ∈ l, x.eTag = none ∨ x.partNumber = none) →
      formatParts l = none := by
  intro l
  induction l with
  | nil =>
    rintro ⟨x, hx, _⟩
    cases hx
  | cons e es ih =>
    rintro ⟨x, hx, hmiss⟩
    simp only [List.mem_cons] at hx
    rcases hx with rfl | hx
    · cases hn : x.partNumber with
      | none => cases he : x.eTag <;> simp [formatParts, he, hn]
      | some n =>
        rcases hmiss with h | h
        · simp [formatParts, h]
        · rw [hn] at h
          exact absurd h (by simp)
    · cases he : e.eTag with
      | none => simp [formatParts, he]
      | some t =>
        cases hn : e.partNumber with
        | none => simp [formatParts, he, hn]
        | some m => simp [formatParts, he, hn, ih ⟨x, hx, hmiss⟩]

/-- C9: for every finalize call whose manifest passes validation
(non-empty proper list) but holds an entry lacking the ETag or PartNumber
field, finalize returns the generic catch-all failure — a body distinct
from both invalidRequest and the storeError body — and the empty trace:
neither the completion nor an abort is ever attempted. -/
theorem finalize_missing_field_generic (bucket : String)
    (store : FinalizeStore) (ev : FinalizeEvent) (e : PartEntry)
    (es : List PartEntry)
    (hu : strTruthy ev.uploadId = true) (hk : strTruthy ev.key = true)
    (hp : ev.parts = some (.list (e :: es)))
    (hmiss : ∃ x ∈ e :: es, x.eTag = none ∨ x.partNumber = none) :
    finalize bucket store ev = (FinalizeResult.genericError, []) ∧
    FinalizeResult.genericError ≠ FinalizeResult.invalidRequest ∧
    FinalizeResult.genericError ≠ FinalizeResult.storeError := by
  have hf := formatParts_eq_none_of_missing (e :: es) hmiss
  exact ⟨by simp [finalize, hp, hu, hk, hf], by simp, by simp⟩

/-- Witness for C9 on a one-entry manifest whose entry lacks ETag. -/
theorem finalize_missing_field_generic_witness :
    finalize "bkt" ⟨.ok sampleCompleteResponse, .ok ()⟩
        ⟨some "sess-1", some "obj-key", some (.list [⟨none, some 1⟩])⟩ =
      (FinalizeResult.genericError, []) ∧
    FinalizeResult.genericError ≠ FinalizeResult.invalidRequest ∧
    FinalizeResult.genericError ≠ FinalizeResult.storeError :=
  finalize_missing_field_generic "bkt" ⟨.ok sampleCompleteResponse, .ok ()⟩
    ⟨some "sess-1", some "obj-key", some (.list [⟨none, some 1⟩])⟩
    ⟨none, some 1⟩ [] rfl rfl rfl ⟨⟨none, some 1⟩, by simp, Or.inl rfl⟩

/-- C7: validation failures are reported before any store call.  For the
planner: a missing or empty fileName or fileType yields the
invalidRequest body with an empty trace — no initiation, no
authorization minting.  For the finalizer: a missing or empty uploadId or
key, or a parts field that is empty or not a proper list, yields the
invalidRequest body with an empty trace — no completion, no abort. -/
theorem validation_precedes_store_calls :
    (∀ (bucket requestId : String) (store : PlannerStore) (ev : PlanEvent),
      strTruthy ev.fileName = false ∨ strTruthy ev.fileType = false →
      plan bucket store requestId ev = (.invalidRequest, [])) ∧
    (∀ (bucket : String) (store : FinalizeStore) (ev : FinalizeEvent),
      strTruthy ev.uploadId = false ∨ strTruthy ev.key = false ∨
        isProperNonemptyList ev.parts = false →
      finalize bucket store ev = (.invalidRequest, [])) := by
  constructor
  · intro bucket requestId store ev h
    have hcond : (strTruthy ev.fileName && strTruthy ev.fileType) = false := by
      rcases h with h | h <;> simp [h]
    simp [plan, hcond]
  · intro bucket store ev h
    cases hparts : ev.parts with
    | none => simp [finalize, hparts]
    | some pf =>
      cases pf with
      | nonList => simp [finalize, hparts]
      | list entries =>
        cases entries with
        | nil => simp [finalize, hparts]
        | cons e es =>
          rcases h with h | h | h
          · simp [finalize, hparts, h]
          · simp [finalize, hparts, h]
          · rw [hparts] at h
            exact absurd h (by simp [isProperNonemptyList])

/-- Witness for C7: an empty fileName for the planner, an empty manifest
list for the finalizer. -/
theorem validation_precedes_store_calls_witness :
    plan "bkt" constPlannerStore "ab"
      ⟨some "", some "text/plain", none⟩ = (.invalidRequest, []) ∧
    finalize "bkt" ⟨.ok sampleCompleteResponse, .ok ()⟩
      ⟨some "sess-1", some "obj-key", some (.list [])⟩ = (.invalidRequest, []) :=
  ⟨validation_precedes_store_calls.1 "bkt" "ab" constPlannerStore
      ⟨some "", some "text/plain", none⟩ (Or.inl rfl),
   validation_precedes_store_calls.2 "bkt" ⟨.ok sampleCompleteResponse, .ok ()⟩
      ⟨some "sess-1", some "obj-key", some (.list [])⟩ (Or.inr (Or.inr rfl))⟩

/-! ## Key derivation (C8): injectivity of the decimal token rendering.

The object key is `uploads/` ++ decimal(token) ++ `-` ++ fileName with
token = int(aws_request_id[:8], 16).  Distinct tokens give distinct keys
(proved below via injectivity of the decimal rendering of `Nat`), but
distinct request ids can share a token — the collision counterexample. -/

/-- The fuel argument of `Nat.toDigitsCore` does not matter once it
exceeds the number being rendered. -/
theorem toDigitsCore_fuel_irrelevant (b : Nat) (hb : 1 < b) :
    ∀ (n f₁ f₂ : Nat) (ds : List Char), n < f₁ → n < f₂ →
      Nat.toDigitsCore b f₁ n ds = Nat.toDigitsCore b f₂ n ds := by
  intro n
  induction n using Nat.strong_induction_on with
  | _ n ih =>
    intro f₁ f₂ ds h₁ h₂
    cases f₁ with
    | zero => omega
    | succ g₁ =>
      cases f₂ with
      | zero => omega
      | succ g₂ =>
        simp only [Nat.toDigitsCore]
        by_cases h : n / b = 0
        · rw [if_pos h, if_pos h]
        · rw [if_neg h, if_neg h]
          have hnpos : 0 < n := by
            rcases Nat.eq_zero_or_pos n with rfl | hp
            · exact absurd (Nat.zero_div b) h
            · exact hp
          have hdiv : n / b < n := Nat.div_lt_self hnpos hb
          exact ih (n / b) hdiv g₁ g₂ _ (by omega) (by omega)

/-- The rendering loop `Nat.toDigitsCore` only prepends to its accumulator. -/
theorem toDigitsCore_append (b : Nat) :
    ∀ (f n : Nat) (ds : List Char),
      Nat.toDigitsCore b f n ds = Nat.toDigitsCore b f n [] ++ ds := by
  intro f
  induction f with
  | zero =>
    intro n ds
    simp [Nat.toDigitsCore]
  | succ f ih =>
    intro n ds
    simp only [Nat.toDigitsCore]
    by_cases h : n / b = 0
    · rw [if_pos h, if_pos h]
      rfl
    · rw [if_neg h, if_neg h]
      rw [ih (n / b) (Nat.digitChar (n % b) :: ds),
        ih (n / b) [Nat.digitChar (n % b)]]
      simp

/-- For positive n, `Nat.toDigits 10 n` is the base-10 digit list of
Mathlib (most significant first), rendered through `Nat.digitChar`. -/
theorem toDigits_eq_digits_map :
    ∀ n : Nat, 0 < n →
      Nat.toDigits 10 n = ((Nat.digits 10 n).map Nat.digitChar).reverse := by
  intro n
  induction n using Nat.strong_induction_on with
  | _ n ih =>
    intro hn
    by_cases hsmall : n < 10
    · have h0 : n / 10 = 0 := Nat.div_eq_of_lt hsmall
      have hstep : Nat.toDigits 10 n = [Nat.digitChar (n % 10)] := by
        simp only [Nat.toDigits, Nat.toDigitsCore]
        rw [if_pos h0]
      rw [hstep, Nat.digits_of_lt 10 n (by omega) hsmall]
      simp [Nat.mod_eq_of_lt hsmall]
    · push_neg at hsmall
      have hd0 : ¬ n / 10 = 0 := by omega
      have hdpos : 0 < n / 10 := Nat.pos_of_ne_zero hd0
      have hdlt : n / 10 < n := by omega
      have hstep : Nat.toDigits 10 n =
          Nat.toDigitsCore 10 n (n / 10) [Nat.digitChar (n % 10)] := by
        simp only [Nat.toDigits, Nat.toDigitsCore]
        rw [if_neg hd0]
      rw [hstep, toDigitsCore_append 10 n (n / 10) [Nat.digitChar (n % 10)]]
      rw [toDigitsCore_fuel_irrelevant 10 (by omega) (n / 10) n (n / 10 + 1) []
        hdlt (Nat.lt_succ_self _)]
      have hrec : Nat.toDigitsCore 10 (n / 10 + 1) (n / 10) [] =
          Nat.toDigits 10 (n / 10) := rfl
      rw [hrec, ih (n / 10) hdlt hdpos, Nat.digits_def' (by omega : 1 < 10) hn]
      simp

/-- The digit rendering `Nat.digitChar` is injective on values below 10. -/
theorem digitChar_injOn_lt :
    ∀ d₁, d₁ < 10 → ∀ d₂, d₂ < 10 →
      Nat.digitChar d₁ = Nat.digitChar d₂ → d₁ = d₂ := by decide

/-- Digit lists bounded below 10 are determined by their rendering. -/
theorem map_digitChar_inj :
    ∀ (l₁ l₂ : List Nat), (∀ d ∈ l₁, d < 10) → (∀ d ∈ l₂, d < 10) →
      l₁.map Nat.digitChar = l₂.map Nat.digitChar → l₁ = l₂ := by
  intro l₁
  induction l₁ with
  | nil =>
    intro l₂ _ _ h
    cases l₂ with
    | nil => rfl
    | cons b t => simp at h
  | cons a t ih =>
    intro l₂ h₁ h₂ h
    cases l₂ with
    | nil => simp at h
    | cons b t₂ =>
      simp only [List.map_cons, List.cons.injEq] at h
      have hab : a = b := digitChar_injOn_lt a (h₁ a (List.mem_cons_self a t))
        b (h₂ b (List.mem_cons_self b t₂)) h.1
      subst hab
      rw [ih t₂ (fun d hd => h₁ d (List.mem_cons_of_mem _ hd))
        (fun d hd => h₂ d (List.mem_cons_of_mem _ hd)) h.2]

/-- A positive number never renders like zero. -/
theorem toDigits_ne_toDigits_zero (n : Nat) (hn : 0 < n) :
    Nat.toDigits 10 n ≠ Nat.toDigits 10 0 := by
  intro hd
  rw [toDigits_eq_digits_map n hn] at hd
  have hmap : (Nat.digits 10 n).map Nat.digitChar = ['0'] := by
    rw [show Nat.toDigits 10 0 = ['0'] from rfl] at hd
    have h2 := congrArg List.reverse hd
    simpa using h2
  have hdig : Nat.digits 10 n = [0] := by
    apply map_digitChar_inj
    · exact fun d hdm => Nat.digits_lt_base (by omega) hdm
    · intro d hdm
      simp only [List.mem_singleton] at hdm
      omega
    · rw [hmap]
      rfl
  have hofd := Nat.ofDigits_digits 10 n
  rw [hdig] at hofd
  simp [Nat.ofDigits] at hofd
  omega

/-- The decimal rendering of a natural number is injective. -/
theorem Nat_repr_inj (m n : Nat) (h : Nat.repr m = Nat.repr n) : m = n := by
  have hd : Nat.toDigits 10 m = Nat.toDigits 10 n := congrArg String.data h
  rcases Nat.eq_zero_or_pos m with rfl | hm
  · rcases Nat.eq_zero_or_pos n with rfl | hn
    · rfl
    · exact absurd hd.symm (toDigits_ne_toDigits_zero n hn)
  · rcases Nat.eq_zero_or_pos n with rfl | hn
    · exact absurd hd (toDigits_ne_toDigits_zero m hm)
    · rw [toDigits_eq_digits_map m hm, toDigits_eq_digits_map n hn] at hd
      have hmap := List.reverse_injective hd
      have hdig := map_digitChar_inj _ _
        (fun d hdm => Nat.digits_lt_base (by omega) hdm)
        (fun d hdn => Nat.digits_lt_base (by omega) hdn) hmap
      calc m = Nat.ofDigits 10 (Nat.digits 10 m) :=
              (Nat.ofDigits_digits 10 m).symm
        _ = Nat.ofDigits 10 (Nat.digits 10 n) := by rw [hdig]
        _ = n := Nat.ofDigits_digits 10 n

/-- Distinct tokens derive distinct object keys (same fileName). -/
theorem derivedKey_token_inj (t₁ t₂ : Nat) (f : String)
    (h : derivedKey t₁ f = derivedKey t₂ f) : t₁ = t₂ := by
  have hdata := congrArg String.data h
  simp only [derivedKey, String.data_append, List.append_assoc] at hdata
  have h₂ := List.append_cancel_left hdata
  have h₃ := List.append_cancel_right h₂
  exact Nat_repr_inj t₁ t₂ (String.ext h₃)

/-- Reduction of `plan` on the multipart path, keyed only on the
large-file flag. -/
theorem plan_multipart_eq_of_large (bucket requestId : String)
    (store : PlannerStore) (ev : PlanEvent) (token : Nat) (uploadId : String)
    (hname : strTruthy ev.fileName = true) (htype : strTruthy ev.fileType = true)
    (htok : parseHex16 (requestId.take 8) = some token)
    (hlf : isLargeFile ev.fileSize = true)
    (hinit : store.initiateResult = .ok uploadId) :
    plan bucket store requestId ev =
      (.multipart uploadId (derivedKey token (ev.fileName.getD ""))
         ((List.range (((ev.fileSize.getD 0).toNat + PART_SIZE - 1) / PART_SIZE)).map
           fun i =>
             { partNumber := i + 1
               presignedUrl := store.presignPart bucket
                 (derivedKey token (ev.fileName.getD "")) (i + 1) uploadId })
         PART_SIZE,
       .createMultipartUpload bucket (derivedKey token (ev.fileName.getD ""))
           (ev.fileType.getD "") ::
         (List.range (((ev.fileSize.getD 0).toNat + PART_SIZE - 1) / PART_SIZE)).map
           fun i =>
             .presignUploadPart bucket (derivedKey token (ev.fileName.getD ""))
               (i + 1) uploadId) := by
  simp [plan, hname, htype, htok, hlf, hinit]

/-- Reduction of `plan` when the store fails the session initiation. -/
theorem plan_aws_error_eq (bucket requestId : String) (store : PlannerStore)
    (ev : PlanEvent) (token : Nat)
    (hname : strTruthy ev.fileName = true) (htype : strTruthy ev.fileType = true)
    (htok : parseHex16 (requestId.take 8) = some token)
    (hlf : isLargeFile ev.fileSize = true)
    (hinit : store.initiateResult = .error ()) :
    plan bucket store requestId ev =
      (.awsError,
       [.createMultipartUpload bucket (derivedKey token (ev.fileName.getD ""))
          (ev.fileType.getD "")]) := by
  simp [plan, hname, htype, htok, hlf, hinit]

/-- Every object key the planner hands out is the derived key for the
token parsed from the first 8 characters of the request id. -/
theorem plan_objectKey_shape (bucket requestId : String)
    (store : PlannerStore) (ev : PlanEvent) (k : String)
    (h : (plan bucket store requestId ev).1.objectKey = some k) :
    ∃ t, parseHex16 (requestId.take 8) = some t ∧
      k = derivedKey t (ev.fileName.getD "") := by
  by_cases hv : (strTruthy ev.fileName && strTruthy ev.fileType) = true
  · have hpair : strTruthy ev.fileName = true ∧ strTruthy ev.fileType = true := by
      simpa using hv
    rcases hpair with ⟨hname, htype⟩
    cases htok : parseHex16 (requestId.take 8) with
    | none => simp [plan, hname, htype, htok, PlanResult.objectKey] at h
    | some t =>
      refine ⟨t, rfl, ?_⟩
      cases hlf : isLargeFile ev.fileSize with
      | false =>
        rw [plan_single_eq bucket requestId store ev t hname htype htok hlf] at h
        simpa [PlanResult.objectKey] using h.symm
      | true =>
        cases hinit : store.initiateResult with
        | error u =>
          rw [plan_aws_error_eq bucket requestId store ev t hname htype htok
            hlf hinit] at h
          simp [PlanResult.objectKey] at h
        | ok uid =>
          rw [plan_multipart_eq_of_large bucket requestId store ev t uid hname
            htype htok hlf hinit] at h
          simpa [PlanResult.objectKey] using h.symm
  · have hv' : (strTruthy ev.fileName && strTruthy ev.fileType) = false := by
      simpa using hv
    simp [plan, hv', PlanResult.objectKey] at h

/-- C8 amended: two plan calls with identical input receive distinct
ObjectKeys whenever the first 8 characters of their request ids parse to
distinct hexadecimal values; the per-call token alone separates the keys.
Distinctness of the request ids themselves is NOT sufficient — see the
collision counterexample. -/
theorem plan_distinct_hex_tokens_distinct_keys (bucket r₁ r₂ : String)
    (s₁ s₂ : PlannerStore) (ev : PlanEvent) (t₁ t₂ : Nat) (k₁ k₂ : String)
    (h₁ : parseHex16 (r₁.take 8) = some t₁)
    (h₂ : parseHex16 (r₂.take 8) = some t₂)
    (hne : t₁ ≠ t₂)
    (hk₁ : (plan bucket s₁ r₁ ev).1.objectKey = some k₁)
    (hk₂ : (plan bucket s₂ r₂ ev).1.objectKey = some k₂) :
    k₁ ≠ k₂ := by
  obtain ⟨u₁, hu₁, hk₁eq⟩ := plan_objectKey_shape bucket r₁ s₁ ev k₁ hk₁
  obtain ⟨u₂, hu₂, hk₂eq⟩ := plan_objectKey_shape bucket r₂ s₂ ev k₂ hk₂
  rw [h₁] at hu₁
  rw [h₂] at hu₂
  obtain rfl := Option.some.inj hu₁
  obtain rfl := Option.some.inj hu₂
  intro heq
  rw [hk₁eq, hk₂eq] at heq
  exact hne (derivedKey_token_inj _ _ _ heq)

/-- Witness for the amended C8: request id prefixes with hex values 1 and
2 yield distinct keys for the same input. -/
theorem plan_distinct_hex_tokens_distinct_keys_witness :
    ("uploads/1-f.txt" : String) ≠ "uploads/2-f.txt" :=
  plan_distinct_hex_tokens_distinct_keys "bkt" "1" "2" constPlannerStore
    constPlannerStore evNoSize 1 2 "uploads/1-f.txt" "uploads/2-f.txt"
    (by decide) (by decide) (by decide) (by decide) (by decide)

/-- C8 counterexample: two plan calls with identical input (same
fileName, fileType, absent fileSize) and DISTINCT request ids — the
8-character prefixes differ only in the case of one hex digit — derive
the SAME ObjectKey, because the key depends only on the numeric value of
the prefix.  The claim that every such pair of calls produces two
distinct ObjectKeys is therefore false. -/
theorem plan_identical_input_key_collision :
    ("0000000a-1111" : String) ≠ "0000000A-2222" ∧
    (plan "bkt" constPlannerStore "0000000a-1111" evNoSize).1.objectKey =
      some "uploads/10-f.txt" ∧
    (plan "bkt" constPlannerStore "0000000A-2222" evNoSize).1.objectKey =
      some "uploads/10-f.txt" := by
  refine ⟨by decide, by decide, by decide⟩

end Uploader
